import Mathlib

/-!
DoubleTreeWidget (src/ui/DoubleTreeWidget.cpp)

A shallow embedding of the slots of `DoubleTreeWidget` and of the helper class
`SegmentedButton`.  The widget is a record of the observable state of its
collaborators (two tree views, two collapse buttons, the stacked file view, the
blame editor, the diff view and the shared tree model); every slot is a function
from the state before the call to the state after it.  Each mutating call that a
slot issues on a collaborator is also appended to `DoubleTreeWidget.trace`, so
that statements about what a slot does (and does not do) can be made even when
the call leaves the observable state as it was.
-/

namespace Gittyup

/-! ## Values handed in from the version-control library -/

/-- A git tree, identified by a number (git::Tree). -/
abbrev Tree := Nat

/-- A git diff, identified by a number (git::Diff). -/
abbrev Diff := Nat

/-- A git blob; none is the null blob of a default-constructed git::Blob. -/
abbrev Blob := Option Nat

/-- A git commit; none is the null commit of a default-constructed git::Commit. -/
abbrev Commit := Option Nat

/-- The value of git::Index::StagedState, passed through unchanged by the widget. -/
abbrev StagedState := Int

/-- The two tree views of the widget (and the proxy each of them shows). -/
inductive Side where
  | staged
  | unstaged
  deriving DecidableEq, Repr

/-- Qt::Unchecked. -/
def Qt.Unchecked : Int := 0

/-- Qt::PartiallyChecked. -/
def Qt.PartiallyChecked : Int := 1

/-- Qt::Checked. -/
def Qt.Checked : Int := 2

/-- Qt::CheckStateRole. -/
def Qt.CheckStateRole : Int := 10

/-! ## Model indexes -/

/-- The data a valid model index points at: the row, the name reported for
Qt::EditRole and the blob reported for TreeModel::BlobRole. -/
structure Entry where
  row : Nat
  name : String
  blob : Blob
  deriving DecidableEq, Repr

/-- A QModelIndex: either invalid (no entry) or pointing at an entry. -/
structure ModelIndex where
  entry : Option Entry
  deriving DecidableEq, Repr

/-- The result of QModelIndex::isValid. -/
def ModelIndex.isValid (index : ModelIndex) : Bool :=
  index.entry.isSome

/-- The result of index.data(Qt::EditRole).toString(); an invalid index yields
an empty QVariant and so the empty string. -/
def ModelIndex.editRole (index : ModelIndex) : String :=
  match index.entry with
  | some e => e.name
  | none => ""

/-- The result of index.data(TreeModel::BlobRole).value<git::Blob>(); an invalid
index yields the null blob. -/
def ModelIndex.blobRole (index : ModelIndex) : Blob :=
  match index.entry with
  | some e => e.blob
  | none => none

/-! ## SegmentedButton -/

/-- The properties of a QAbstractButton that SegmentedButton::addButton and the
constructor of the widget set. -/
structure QAbstractButton where
  text : String
  toolTip : String
  checkable : Bool
  checked : Bool
  objectName : String
  deriving DecidableEq, Repr

/-- A freshly constructed QPushButton with the given text. -/
def QAbstractButton.create (text : String) : QAbstractButton :=
  { text := text, toolTip := "", checkable := false, checked := false, objectName := "" }

/-- The class SegmentedButton: mButtons is the QButtonGroup, kept as the list of
its buttons in insertion order, each with the id it was added under. -/
structure SegmentedButton where
  mButtons : List (QAbstractButton × Int)
  deriving DecidableEq, Repr

/-- The constructor of SegmentedButton: an empty button group. -/
def SegmentedButton.create : SegmentedButton :=
  { mButtons := [] }

/-- Calls setObjectName(name) on the button at position i of the list, if any. -/
def setObjectNameAt (name : String) : Nat → List (QAbstractButton × Int) → List (QAbstractButton × Int)
  | _, [] => []
  | 0, (b, id) :: rest => ({ b with objectName := name }, id) :: rest
  | i + 1, p :: rest => p :: setObjectNameAt name i rest

/-- The loop of addButton: for (int i = 1; i < size - 1; ++i) the button at i is
named middle. -/
def nameMiddle (bs : List (QAbstractButton × Int)) : List (QAbstractButton × Int) :=
  (List.range (bs.length - 1)).foldl
    (fun acc i => if 1 ≤ i then setObjectNameAt "middle" i acc else acc) bs

/-- SegmentedButton::addButton(button, text, checkable). The button receives
the tool tip and the checkable flag and joins the group under the id
mButtons.buttons().size(), read before the button is added. -/
def SegmentedButton.addButton (sb : SegmentedButton) (button : QAbstractButton)
    (text : String) (checkable : Bool) : SegmentedButton :=
  let button := { button with toolTip := text, checkable := checkable }
  let bs := sb.mButtons ++ [(button, (sb.mButtons.length : Int))]
  let bs :=
    if bs.length > 1 then
      setObjectNameAt "last" (bs.length - 1) (setObjectNameAt "first" 0 bs)
    else bs
  { mButtons := nameMiddle bs }

/-- Adds the buttons of a list one after the other, each with its own tool tip
and checkable flag. -/
def SegmentedButton.addButtons (sb : SegmentedButton) :
    List (QAbstractButton × String × Bool) → SegmentedButton
  | [] => sb
  | (b, text, checkable) :: rest => (sb.addButton b text checkable).addButtons rest

/-- The id of the button with the given text (QButtonGroup::id), if it is in
the group. -/
def SegmentedButton.idOf (sb : SegmentedButton) (text : String) : Option Int :=
  (sb.mButtons.find? (fun p => p.1.text == text)).map Prod.snd

/-- Calls setChecked(checked) on the button with the given text. -/
def SegmentedButton.setChecked (sb : SegmentedButton) (text : String) (checked : Bool) :
    SegmentedButton :=
  { mButtons := sb.mButtons.map
      (fun p => if p.1.text == text then ({ p.1 with checked := checked }, p.2) else p) }

/-- What identifies an entry of the button group: the text of the button and
the id it was added under. -/
def buttonKey (p : QAbstractButton × Int) : String × Int :=
  (p.1.text, p.2)

/-- The buttons and ids a group gains from addButtons when it held n buttons
before. -/
def addedKeys : Nat → List (QAbstractButton × String × Bool) → List (String × Int)
  | _, [] => []
  | n, (b, _, _) :: rest => (b.text, (n : Int)) :: addedKeys (n + 1) rest

/-! ## The collaborators of the widget -/

/-- The pages of the stacked file view. -/
inductive Page where
  | blameEditor
  | diffView
  deriving DecidableEq, Repr

/-- A QStackedWidget: its pages in index order and the current index, which is
-1 while there is no page. -/
structure QStackedWidget where
  pages : List Page
  currentIndex : Int
  deriving DecidableEq, Repr

/-- A QStackedWidget without pages. -/
def QStackedWidget.create : QStackedWidget :=
  { pages := [], currentIndex := -1 }

/-- QStackedWidget::addWidget: appends the page and returns its index; the first
page added becomes the current one. -/
def QStackedWidget.addWidget (s : QStackedWidget) (p : Page) : QStackedWidget × Int :=
  ({ pages := s.pages ++ [p],
     currentIndex := if s.pages.isEmpty then 0 else s.currentIndex },
   (s.pages.length : Int))

/-- QStackedWidget::setCurrentIndex: the index becomes current when there is a
page at it, and nothing changes otherwise. -/
def QStackedWidget.setCurrentIndex (s : QStackedWidget) (idx : Int) : QStackedWidget :=
  if 0 ≤ idx ∧ idx < (s.pages.length : Int) then { s with currentIndex := idx } else s

/-- The page shown: QStackedWidget::currentWidget. -/
def QStackedWidget.currentWidget (s : QStackedWidget) : Option Page :=
  if 0 ≤ s.currentIndex then s.pages[s.currentIndex.toNat]? else none

/-- A TreeView: the selected indexes of its selection model, the expansion flag
of every expandable row it shows (true is expanded), and its visibility. -/
structure TreeView where
  selection : List ModelIndex
  rows : List Bool
  visible : Bool
  deriving DecidableEq, Repr

/-- The result of selectionModel()->selectedIndexes(). -/
def TreeView.selectedIndexes (v : TreeView) : List ModelIndex :=
  v.selection

/-- QTreeView::expandAll: every expandable row is expanded. -/
def TreeView.expandAll (v : TreeView) : TreeView :=
  { v with rows := v.rows.map (fun _ => true) }

/-- QTreeView::collapseAll: every expandable row is collapsed. -/
def TreeView.collapseAll (v : TreeView) : TreeView :=
  { v with rows := v.rows.map (fun _ => false) }

/-- Modelled from the spec: TreeView::deselectAll (TreeView.cpp is not part of
the sources); it deselects the tree, leaving its selection empty. -/
def TreeView.deselectAll (v : TreeView) : TreeView :=
  { v with selection := [] }

/-- The reaction of a view to a reset of its model (QAbstractItemView::reset):
the selection is dropped and the view shows the n expandable rows of the
rebuilt model, none of them expanded. -/
def TreeView.reset (v : TreeView) (n : Nat) : TreeView :=
  { v with selection := [], rows := List.replicate n false }

/-- Every expandable row of the view is expanded. -/
def TreeView.fullyExpanded (v : TreeView) : Prop :=
  ∀ r ∈ v.rows, r = true

/-- Modelled from the spec: BlameEditor (BlameEditor.cpp is not part of the
sources); what it has loaded: a name, a blob and a commit, or nothing once
cleared. -/
structure BlameEditor where
  content : Option (String × Blob × Commit)
  deriving DecidableEq, Repr

/-- Modelled from the spec: DiffView (DiffView.cpp is not part of the sources);
its enabled flag, the file-name filter and the diff it holds. -/
structure DiffView where
  enabled : Bool
  filter : List String
  diff : Option Diff
  deriving DecidableEq, Repr

/-- Modelled from the spec: TreeModel (TreeModel.cpp is not part of the
sources); the tree and diff the shared model was last populated from. -/
structure TreeModel where
  content : Option (Tree × Diff)
  deriving DecidableEq, Repr

/-- What the widget reads from outside: the tree and the commit list of the
parent view (RepoView::parentView(this)->tree() and ->commits()), and for each
proxy the number of expandable rows it exposes for a model populated from a
tree and a diff (TreeModel and TreeProxy are not part of the sources, so this
number is left open). -/
structure Env where
  tree : Tree
  commits : List Commit
  expandable : Side → Tree → Diff → Nat

/-- The mutating calls that the slots issue on the collaborators. -/
inductive Call where
  | setTree (tree : Tree) (diff : Diff)
  | expandAll (t : Side)
  | collapseAll (t : Side)
  | deselectAll (t : Side)
  | setFocus (t : Side)
  | setVisible (t : Side) (visible : Bool)
  | editorClear
  | editorLoad (name : String) (blob : Blob) (commit : Commit)
  | diffEnable (enabled : Bool)
  | diffSetFilter (names : List String)
  | diffSetDiff (diff : Diff)
  | setData (t : Side) (index : ModelIndex) (state : StagedState) (role : Int)
      (ignoreIndexChanges : Bool)
  | toggleState (t : Side)
  | setCurrentIndex (idx : Int)
  deriving DecidableEq, Repr

/-! ## The widget -/

/-- The state of a DoubleTreeWidget. The two collapse buttons are kept as the
latch of their StatePushButton; focus is the tree view that last received
setFocus; trace lists the calls issued by the slots since construction. -/
structure DoubleTreeWidget where
  segmentedButton : SegmentedButton
  mFileView : QStackedWidget
  mEditor : BlameEditor
  mDiffView : DiffView
  mTreeModel : TreeModel
  stagedFiles : TreeView
  unstagedFiles : TreeView
  collapseButtonStagedFiles : Bool
  collapseButtonUnstagedFiles : Bool
  focus : Option Side
  trace : List Call
  deriving DecidableEq, Repr

namespace DoubleTreeWidget

/-- Appends a call to the trace. -/
def log (w : DoubleTreeWidget) (c : Call) : DoubleTreeWidget :=
  { w with trace := w.trace ++ [c] }

/-- The tree view of a side. -/
def view (w : DoubleTreeWidget) : Side → TreeView
  | .staged => w.stagedFiles
  | .unstaged => w.unstagedFiles

/-- Replaces the tree view of a side. -/
def setView (w : DoubleTreeWidget) : Side → TreeView → DoubleTreeWidget
  | .staged, v => { w with stagedFiles := v }
  | .unstaged, v => { w with unstagedFiles := v }

/-- The call expandAll() on the tree view of a side. -/
def expandAll (w : DoubleTreeWidget) (t : Side) : DoubleTreeWidget :=
  (w.setView t (w.view t).expandAll).log (.expandAll t)

/-- The call collapseAll() on the tree view of a side. -/
def collapseAll (w : DoubleTreeWidget) (t : Side) : DoubleTreeWidget :=
  (w.setView t (w.view t).collapseAll).log (.collapseAll t)

/-- The call deselectAll() on the tree view of a side. -/
def deselectAll (w : DoubleTreeWidget) (t : Side) : DoubleTreeWidget :=
  (w.setView t (w.view t).deselectAll).log (.deselectAll t)

/-- The call setFocus() on the tree view of a side. -/
def setFocus (w : DoubleTreeWidget) (t : Side) : DoubleTreeWidget :=
  ({ w with focus := some t }).log (.setFocus t)

/-- The call setVisible(visible) on the tree view of a side. -/
def setVisible (w : DoubleTreeWidget) (t : Side) (visible : Bool) : DoubleTreeWidget :=
  (w.setView t { w.view t with visible := visible }).log (.setVisible t visible)

/-- Modelled from the spec: TreeModel::setTree (TreeModel.cpp is not part of the
sources). The shared model is rebuilt wholesale from the tree and the diff, and
its entries live only as long as that build; the source calls this step
"Reset model" and has to remember the selection across it. Both tree views show
the one shared model through their proxies, so both are reset. -/
def setTree (env : Env) (w : DoubleTreeWidget) (tree : Tree) (diff : Diff) : DoubleTreeWidget :=
  ({ w with
      mTreeModel := { content := some (tree, diff) },
      stagedFiles := w.stagedFiles.reset (env.expandable .staged tree diff),
      unstagedFiles := w.unstagedFiles.reset (env.expandable .unstaged tree diff) }).log
    (.setTree tree diff)

/-- Modelled from the spec: BlameEditor::clear (BlameEditor.cpp is not part of
the sources); the editor holds nothing afterwards. -/
def editorClear (w : DoubleTreeWidget) : DoubleTreeWidget :=
  ({ w with mEditor := { content := none } }).log .editorClear

/-- Modelled from the spec: BlameEditor::load (BlameEditor.cpp is not part of
the sources); the editor holds the name, the blob and the commit afterwards. -/
def editorLoad (w : DoubleTreeWidget) (name : String) (blob : Blob) (commit : Commit) :
    DoubleTreeWidget :=
  ({ w with mEditor := { content := some (name, blob, commit) } }).log
    (.editorLoad name blob commit)

/-- Modelled from the spec: DiffView::enable (DiffView.cpp is not part of the
sources); sets the enabled flag. -/
def diffEnable (w : DoubleTreeWidget) (enabled : Bool) : DoubleTreeWidget :=
  ({ w with mDiffView := { w.mDiffView with enabled := enabled } }).log (.diffEnable enabled)

/-- Modelled from the spec: DiffView::setFilter (DiffView.cpp is not part of the
sources); sets the file-name filter. -/
def diffSetFilter (w : DoubleTreeWidget) (names : List String) : DoubleTreeWidget :=
  ({ w with mDiffView := { w.mDiffView with filter := names } }).log (.diffSetFilter names)

/-- Modelled from the spec: DiffView::setDiff (DiffView.cpp is not part of the
sources); the view holds the diff afterwards. -/
def diffSetDiff (w : DoubleTreeWidget) (diff : Diff) : DoubleTreeWidget :=
  ({ w with mDiffView := { w.mDiffView with diff := some diff } }).log (.diffSetDiff diff)

/-- Modelled from the spec: TreeProxy::setData (TreeProxy.cpp is not part of the
sources). The write is recorded; what the shared model makes of it (the
checkStateChanged signal, rows moving between the proxies) is not part of this
slot and arrives as events of its own. -/
def setData (w : DoubleTreeWidget) (t : Side) (index : ModelIndex) (state : StagedState)
    (role : Int) (ignoreIndexChanges : Bool) : DoubleTreeWidget :=
  w.log (.setData t index state role ignoreIndexChanges)

/-- Modelled from the spec: StatePushButton::toggleState (StatePushButton.cpp is
not part of the sources); the button flips its two-state latch and returns the
new value. -/
def toggleState (w : DoubleTreeWidget) : Side → Bool × DoubleTreeWidget
  | .staged =>
    (!w.collapseButtonStagedFiles,
     ({ w with collapseButtonStagedFiles := !w.collapseButtonStagedFiles }).log
       (.toggleState .staged))
  | .unstaged =>
    (!w.collapseButtonUnstagedFiles,
     ({ w with collapseButtonUnstagedFiles := !w.collapseButtonUnstagedFiles }).log
       (.toggleState .unstaged))

/-- The call mFileView->setCurrentIndex(idx). -/
def setCurrentIndex (w : DoubleTreeWidget) (idx : Int) : DoubleTreeWidget :=
  ({ w with mFileView := w.mFileView.setCurrentIndex idx }).log (.setCurrentIndex idx)

/-! ## Construction -/

/-- The statement assert(mFileView->addWidget(page) == expected) of the
constructor. With NDEBUG defined the macro expands to nothing, so addWidget is
not called and the file view stays as it is. Otherwise the page is added, and
the program aborts (none) unless the index returned is the expected one. -/
def assertAddWidget (NDEBUG : Bool) (s : QStackedWidget) (p : Page) (expected : Int) :
    Option QStackedWidget :=
  if NDEBUG then some s
  else
    let added := s.addWidget p
    if added.2 = expected then some added.1 else none

/-- The constructor of the widget. NDEBUG says whether the file is compiled with
NDEBUG defined. Blame and Diff are the values of the enumerators
DoubleTreeWidget::Blame and DoubleTreeWidget::Diff, and the two latches are the
initial states of the two StatePushButtons; the header and StatePushButton.cpp
are not part of the sources, so all four are left open. The only addWidget
calls on mFileView stand inside the two asserts. A failing assert aborts the
program, which is the result none. The freshly constructed editor, diff view,
model and tree views are empty. -/
def create (NDEBUG : Bool) (Blame Diff : Int) (stagedLatch unstagedLatch : Bool) :
    Option DoubleTreeWidget :=
  let segmentedButton := SegmentedButton.create
  let blameView := QAbstractButton.create "Blame"
  let segmentedButton := segmentedButton.addButton blameView "Blame" true
  let segmentedButton := segmentedButton.setChecked "Blame" true
  let diffView := QAbstractButton.create "Diff"
  let segmentedButton := segmentedButton.addButton diffView "Diff" true
  let mFileView := QStackedWidget.create
  match assertAddWidget NDEBUG mFileView .blameEditor Blame with
  | none => none
  | some mFileView =>
    match assertAddWidget NDEBUG mFileView .diffView Diff with
    | none => none
    | some mFileView =>
      let mFileView := mFileView.setCurrentIndex 0
      some
        { segmentedButton := segmentedButton,
          mFileView := mFileView,
          mEditor := { content := none },
          mDiffView := { enabled := true, filter := [], diff := none },
          mTreeModel := { content := none },
          stagedFiles := { selection := [], rows := [], visible := true },
          unstagedFiles := { selection := [], rows := [], visible := true },
          collapseButtonStagedFiles := stagedLatch,
          collapseButtonUnstagedFiles := unstagedLatch,
          focus := none,
          trace := [] }

/-- The slot connected to QButtonGroup::buttonClicked(int) in the constructor:
the lambda calls mFileView->setCurrentIndex(idx). -/
def buttonClicked (idx : Int) (w : DoubleTreeWidget) : DoubleTreeWidget :=
  w.setCurrentIndex idx

/-! ## The slots -/

/-- DoubleTreeWidget::selectFile: the whole body is commented out. -/
def selectFile (_file : String) (w : DoubleTreeWidget) : DoubleTreeWidget :=
  w

/-- DoubleTreeWidget::setDiff. The name remembered at the start is not used:
the call selectFile(name) that would restore the selection is commented out. -/
def setDiff (env : Env) (diff : Diff) (file : String) (_pathspec : String)
    (w : DoubleTreeWidget) : DoubleTreeWidget :=
  -- Remember selection.
  let name := file
  let _name :=
    if name.isEmpty then
      match w.stagedFiles.selectedIndexes with
      | index :: _ => index.editRole
      | [] => name
    else name
  -- Reset model.
  let tree := env.tree
  let w := w.setTree env tree diff
  let w := w.expandAll .staged
  let w := w.setTree env tree diff
  let w := w.expandAll .unstaged
  -- Clear editor.
  let w := w.editorClear
  let w := w.diffSetDiff diff
  -- Show the tree view.
  w.setVisible .staged true

/-- DoubleTreeWidget::updateTreeModel. -/
def updateTreeModel (state : StagedState) (w : DoubleTreeWidget) : DoubleTreeWidget :=
  match w.stagedFiles.selectedIndexes with
  | index :: _ => w.setData .staged index state Qt.CheckStateRole true
  | [] =>
    match w.unstagedFiles.selectedIndexes with
    | index :: _ => w.setData .unstaged index state Qt.CheckStateRole true
    | [] => w

/-- DoubleTreeWidget::treeModelStateChanged. Both selection lists are read from
stagedFiles, as in the source. -/
def treeModelStateChanged (_index : ModelIndex) (checkState : Int) (w : DoubleTreeWidget) :
    DoubleTreeWidget :=
  let cs := checkState
  let stagedSelections := w.stagedFiles.selectedIndexes
  if cs = Qt.Checked ∧ stagedSelections.length = 0 then
    (w.diffEnable false).editorClear
  else
    let unstagedSelections := w.stagedFiles.selectedIndexes
    if cs = Qt.Unchecked ∧ unstagedSelections.length = 0 then
      (w.diffEnable false).editorClear
    else
      w

/-- DoubleTreeWidget::loadEditorContent. -/
def loadEditorContent (env : Env) (index : ModelIndex) (w : DoubleTreeWidget) :
    DoubleTreeWidget :=
  let name := index.editRole
  let blob := index.blobRole
  let commits := env.commits
  let commit : Commit :=
    match commits with
    | first :: _ => first
    | [] => none
  let w := w.editorLoad name blob commit
  let w := w.diffEnable true
  w.diffSetFilter [name]

/-- The result of QObject::sender() inside a slot: null when the slot was called
directly, one of the two tree views, or some other object. -/
inductive Sender where
  | null
  | treeView (t : Side)
  | other
  deriving DecidableEq, Repr

/-- DoubleTreeWidget::fileSelected, with the object returned by
QObject::sender(). -/
def fileSelected (env : Env) (sender : Sender) (index : ModelIndex) (w : DoubleTreeWidget) :
    DoubleTreeWidget :=
  if !index.isValid then w
  else
    let w :=
      match sender with
      | .null => w
      | .treeView .staged => (w.deselectAll .unstaged).setFocus .staged
      | .treeView .unstaged => (w.deselectAll .staged).setFocus .unstaged
      | .other => w
    loadEditorContent env index w

/-- DoubleTreeWidget::toggleCollapseStagedFiles. -/
def toggleCollapseStagedFiles (w : DoubleTreeWidget) : DoubleTreeWidget :=
  let toggled := w.toggleState .staged
  if toggled.1 then toggled.2.expandAll .staged else toggled.2.collapseAll .staged

/-- DoubleTreeWidget::toggleCollapseUnstagedFiles. -/
def toggleCollapseUnstagedFiles (w : DoubleTreeWidget) : DoubleTreeWidget :=
  let toggled := w.toggleState .unstaged
  if toggled.1 then toggled.2.expandAll .unstaged else toggled.2.collapseAll .unstaged

/-! ## Events -/

/-- The events the widget reacts to. rowSelected is the user selecting the row
index in the tree view t (which puts index, possibly with others, into the
selection of that view), upon which the view emits fileSelected(index). The
other events are calls of the slot of the same name. -/
inductive Event where
  | rowSelected (t : Side) (index : ModelIndex) (others : List ModelIndex)
  | setDiff (diff : Diff) (file : String) (pathspec : String)
  | updateTreeModel (state : StagedState)
  | treeModelStateChanged (index : ModelIndex) (checkState : Int)
  | toggleCollapseStagedFiles
  | toggleCollapseUnstagedFiles
  | buttonClicked (idx : Int)
  deriving DecidableEq, Repr

/-- A selected row is a valid index; the other events carry no constraint. -/
def Event.wellFormed : Event → Bool
  | .rowSelected _ index _ => index.isValid
  | _ => true

/-- The reaction of the widget to one event. -/
def step (env : Env) (e : Event) (w : DoubleTreeWidget) : DoubleTreeWidget :=
  match e with
  | .rowSelected t index others =>
    fileSelected env (.treeView t) index
      (w.setView t { w.view t with selection := index :: others })
  | .setDiff diff file pathspec => setDiff env diff file pathspec w
  | .updateTreeModel state => updateTreeModel state w
  | .treeModelStateChanged index checkState => treeModelStateChanged index checkState w
  | .toggleCollapseStagedFiles => toggleCollapseStagedFiles w
  | .toggleCollapseUnstagedFiles => toggleCollapseUnstagedFiles w
  | .buttonClicked idx => buttonClicked idx w

/-- The reaction of the widget to a sequence of events, first event first; each
event comes with what the parent view provides at that moment. -/
def run : List (Env × Event) → DoubleTreeWidget → DoubleTreeWidget
  | [], w => w
  | (env, e) :: rest, w => run rest (step env e w)

end DoubleTreeWidget

/-- At most one of the two trees holds a selection. -/
def SelectionExclusive (w : DoubleTreeWidget) : Prop :=
  w.stagedFiles.selection = [] ∨ w.unstagedFiles.selection = []

/-! ## Concrete data used in the examples -/

/-- An environment whose model shows two expandable rows in the staged tree and
three in the unstaged tree, whatever the tree and the diff. -/
def sampleEnv : Env :=
  { tree := 7, commits := [some 41, some 40], expandable := fun t _ _ =>
      match t with
      | .staged => 2
      | .unstaged => 3 }

/-- A valid index. -/
def sampleIndex : ModelIndex :=
  { entry := some { row := 0, name := "main.cpp", blob := some 5 } }

/-- Another valid index. -/
def otherIndex : ModelIndex :=
  { entry := some { row := 1, name := "util.h", blob := some 6 } }

/-- The invalid index QModelIndex(). -/
def invalidIndex : ModelIndex :=
  { entry := none }

/-- The widget as constructed in a build without NDEBUG, with both latches off
and the enumerator values 0 and 1 (the constructor does not abort for these, so
the second branch is never taken). -/
def sampleStart : DoubleTreeWidget :=
  match DoubleTreeWidget.create false 0 1 false false with
  | some w => w
  | none =>
    { segmentedButton := SegmentedButton.create,
      mFileView := QStackedWidget.create,
      mEditor := { content := none },
      mDiffView := { enabled := true, filter := [], diff := none },
      mTreeModel := { content := none },
      stagedFiles := { selection := [], rows := [], visible := true },
      unstagedFiles := { selection := [], rows := [], visible := true },
      collapseButtonStagedFiles := false,
      collapseButtonUnstagedFiles := false,
      focus := none,
      trace := [] }

/-- A widget state, picked for the examples: the state after construction, a
new diff and the selection of a row in the unstaged tree. -/
def sampleWidget : DoubleTreeWidget :=
  DoubleTreeWidget.run
    [(sampleEnv, .setDiff 3 "" ""), (sampleEnv, .rowSelected .unstaged sampleIndex [])]
    sampleStart

/-- The Diff button as it sits in the button group of the constructed widget,
with its id. -/
def sampleDiffButton : QAbstractButton × Int :=
  ({ text := "Diff", toolTip := "Diff", checkable := true, checked := false,
     objectName := "last" }, 1)

/-- Three buttons to add to a SegmentedButton. -/
def sampleButtons : List (QAbstractButton × String × Bool) :=
  [(QAbstractButton.create "Left", "Left", true),
   (QAbstractButton.create "Centre", "Centre", true),
   (QAbstractButton.create "Right", "Right", false)]

/-- A sequence of events that visits every kind of event. -/
def sampleEvents : List (Env × DoubleTreeWidget.Event) :=
  [(sampleEnv, .setDiff 3 "" ""),
   (sampleEnv, .rowSelected .staged sampleIndex []),
   (sampleEnv, .toggleCollapseStagedFiles),
   (sampleEnv, .rowSelected .unstaged otherIndex [sampleIndex]),
   (sampleEnv, .updateTreeModel 2),
   (sampleEnv, .treeModelStateChanged otherIndex 2),
   (sampleEnv, .toggleCollapseUnstagedFiles),
   (sampleEnv, .buttonClicked 1)]

/-- The widget constructed with the given initial latches (in a build without
NDEBUG, with the enumerator values 0 and 1) after it has reacted to the events,
in the sample environment; none if the constructor aborts. -/
def widgetAfter (stagedLatch unstagedLatch : Bool) (events : List DoubleTreeWidget.Event) :
    Option DoubleTreeWidget :=
  (DoubleTreeWidget.create false 0 1 stagedLatch unstagedLatch).map
    (DoubleTreeWidget.run (events.map (fun e => (sampleEnv, e))))

/-- The widget as constructed in a build with NDEBUG defined, with both latches
off; as no assert is evaluated there, the constructor cannot abort and the
second branch is never taken. -/
def sampleStartNDEBUG : DoubleTreeWidget :=
  match DoubleTreeWidget.create true 0 1 false false with
  | some w => w
  | none => sampleStart

end Gittyup

namespace Gittyup

open DoubleTreeWidget

/-! ## File selection -/

/-- C1: for a valid index, the slot fileSelected run for the staged tree leaves
the unstaged tree without selection, and run for the unstaged tree it leaves the
staged tree without selection; the selection of the originating tree stays as it
was. -/
theorem fileSelected_deselects_other_tree (env : Env) (index : ModelIndex)
    (w : DoubleTreeWidget) (h : index.isValid = true) :
    (fileSelected env (.treeView .staged) index w).unstagedFiles.selection = [] ∧
    (fileSelected env (.treeView .unstaged) index w).stagedFiles.selection = [] ∧
    (fileSelected env (.treeView .staged) index w).stagedFiles.selection
      = w.stagedFiles.selection ∧
    (fileSelected env (.treeView .unstaged) index w).unstagedFiles.selection
      = w.unstagedFiles.selection := by
  simp [fileSelected, h, loadEditorContent, deselectAll, setFocus, editorLoad, diffEnable,
    diffSetFilter, log, setView, view, TreeView.deselectAll]

/-- Witness of C1 at a widget whose unstaged tree holds a selection: the slot
run for the staged tree empties it. -/
theorem fileSelected_deselects_other_tree_witness :
    otherIndex.isValid = true ∧
    sampleWidget.unstagedFiles.selection = [sampleIndex] ∧
    (fileSelected sampleEnv (.treeView .staged) otherIndex sampleWidget).unstagedFiles.selection
      = [] ∧
    (fileSelected sampleEnv (.treeView .unstaged) otherIndex sampleWidget).stagedFiles.selection
      = [] :=
  ⟨rfl, rfl, (fileSelected_deselects_other_tree sampleEnv otherIndex sampleWidget rfl).1,
   (fileSelected_deselects_other_tree sampleEnv otherIndex sampleWidget rfl).2.1⟩

/-- C5: called with an invalid index, fileSelected returns at once: the widget
state (selections, focus, editor, diff view and the trace of calls) is the one
before the call, whoever the sender is. -/
theorem fileSelected_invalid_index_noop (env : Env) (sender : Sender) (index : ModelIndex)
    (w : DoubleTreeWidget) (h : index.isValid = false) :
    fileSelected env sender index w = w := by
  simp [fileSelected, h]

/-- Witness of C5 at the invalid index QModelIndex(). -/
theorem fileSelected_invalid_index_noop_witness :
    invalidIndex.isValid = false ∧
    fileSelected sampleEnv (.treeView .staged) invalidIndex sampleWidget = sampleWidget :=
  ⟨rfl, fileSelected_invalid_index_noop sampleEnv (.treeView .staged) invalidIndex
    sampleWidget rfl⟩

/-- C7: loadEditorContent loads the name and the blob of the index together with
the first commit of the parent view (the null commit when there is none) into
the blame editor, then enables the diff view, then sets its filter to the list
holding just that name; nothing else of the widget changes. -/
theorem loadEditorContent_loads_entry (tree : Tree) (expandable : Side → Tree → Diff → Nat)
    (first : Commit) (older : List Commit) (index : ModelIndex) (w : DoubleTreeWidget) :
    loadEditorContent { tree := tree, commits := first :: older, expandable := expandable }
        index w
      = { w with
          mEditor := { content := some (index.editRole, index.blobRole, first) },
          mDiffView := { w.mDiffView with enabled := true, filter := [index.editRole] },
          trace := w.trace ++
            [.editorLoad index.editRole index.blobRole first, .diffEnable true,
             .diffSetFilter [index.editRole]] } ∧
    loadEditorContent { tree := tree, commits := [], expandable := expandable } index w
      = { w with
          mEditor := { content := some (index.editRole, index.blobRole, none) },
          mDiffView := { w.mDiffView with enabled := true, filter := [index.editRole] },
          trace := w.trace ++
            [.editorLoad index.editRole index.blobRole none, .diffEnable true,
             .diffSetFilter [index.editRole]] } := by
  simp [loadEditorContent, editorLoad, diffEnable, diffSetFilter, log]

/-! ## Check-state propagation -/

/-- C2: evaluation at the failing input. The unstaged tree holds a selection, the
staged tree holds none, and the file of the selection is loaded; a change to
Qt::Unchecked is reported. The affected side (unstaged) has a selection, yet the
slot disables the diff view and clears the editor, because its second test reads
the selection of the staged tree. -/
theorem treeModelStateChanged_unchecked_clears_despite_selection :
    sampleWidget.unstagedFiles.selection = [sampleIndex] ∧
    sampleWidget.stagedFiles.selection = [] ∧
    sampleWidget.mDiffView.enabled = true ∧
    sampleWidget.mEditor.content = some ("main.cpp", some 5, some 41) ∧
    (treeModelStateChanged otherIndex Qt.Unchecked sampleWidget).mDiffView.enabled = false ∧
    (treeModelStateChanged otherIndex Qt.Unchecked sampleWidget).mEditor.content = none ∧
    (treeModelStateChanged otherIndex Qt.Unchecked sampleWidget).trace
      = sampleWidget.trace ++ [.diffEnable false, .editorClear] := by
  refine ⟨rfl, rfl, rfl, rfl, rfl, rfl, rfl⟩

/-- C9: the decision of treeModelStateChanged to clear the viewer depends on the
check state and on the selection of the staged tree only. The calls it issues
are diffEnable(false) and clear() exactly when the check state is Checked or
Unchecked and the staged tree has no selection, and none otherwise; replacing
the selection of the unstaged tree and the index argument changes neither the
calls nor anything else of the outcome; and PartiallyChecked changes nothing. -/
theorem treeModelStateChanged_reads_staged_selection_only (index index2 : ModelIndex)
    (checkState : Int) (w : DoubleTreeWidget) (unstagedSelection : List ModelIndex) :
    (treeModelStateChanged index checkState w).trace
      = w.trace ++
        (if (checkState = Qt.Checked ∨ checkState = Qt.Unchecked) ∧
            w.stagedFiles.selection = []
         then [.diffEnable false, .editorClear] else []) ∧
    treeModelStateChanged index2 checkState
        { w with unstagedFiles := { w.unstagedFiles with selection := unstagedSelection } }
      = { treeModelStateChanged index checkState w with
          unstagedFiles := { w.unstagedFiles with selection := unstagedSelection } } ∧
    treeModelStateChanged index Qt.PartiallyChecked w = w := by
  unfold treeModelStateChanged
  simp only [TreeView.selectedIndexes, List.length_eq_zero, Qt.Checked, Qt.Unchecked,
    Qt.PartiallyChecked]
  refine ⟨?_, ?_, ?_⟩
  · by_cases hs : w.stagedFiles.selection = []
    · by_cases h2 : checkState = 2
      · simp [hs, h2, diffEnable, editorClear, log]
      · by_cases h0 : checkState = 0
        · simp [hs, h0, diffEnable, editorClear, log]
        · simp [hs, h2, h0]
    · simp [hs]
  · by_cases hs : w.stagedFiles.selection = []
    · by_cases h2 : checkState = 2
      · simp [hs, h2, diffEnable, editorClear, log]
      · by_cases h0 : checkState = 0
        · simp [hs, h0, diffEnable, editorClear, log]
        · simp [hs, h2, h0]
    · simp [hs]
  · simp

/-- C10: updateTreeModel writes at most once. With a selection in the staged
tree it writes the state under CheckStateRole to the first selected index of the
staged proxy and nothing else changes; otherwise, with a selection in the
unstaged tree, it writes to the first selected index of the unstaged proxy; with
no selection at all the widget stays as it was. -/
theorem updateTreeModel_writes_first_selected (state : StagedState) (w : DoubleTreeWidget) :
    (∀ first others, w.stagedFiles.selection = first :: others →
      updateTreeModel state w
        = { w with trace := w.trace ++ [.setData .staged first state Qt.CheckStateRole true] }) ∧
    (∀ first others, w.stagedFiles.selection = [] →
      w.unstagedFiles.selection = first :: others →
      updateTreeModel state w
        = { w with
            trace := w.trace ++ [.setData .unstaged first state Qt.CheckStateRole true] }) ∧
    (w.stagedFiles.selection = [] → w.unstagedFiles.selection = [] →
      updateTreeModel state w = w) := by
  refine ⟨?_, ?_, ?_⟩
  · intro first others h
    simp [updateTreeModel, TreeView.selectedIndexes, h, setData, log]
  · intro first others h hu
    simp [updateTreeModel, TreeView.selectedIndexes, h, hu, setData, log]
  · intro h hu
    simp [updateTreeModel, TreeView.selectedIndexes, h, hu]

/-- Witness of C10: one widget for each of the three cases. -/
theorem updateTreeModel_writes_first_selected_witness :
    updateTreeModel 3
        { sampleWidget with
          stagedFiles := { sampleWidget.stagedFiles with selection := [otherIndex, sampleIndex] } }
      = { sampleWidget with
          stagedFiles := { sampleWidget.stagedFiles with selection := [otherIndex, sampleIndex] },
          trace := sampleWidget.trace ++ [.setData .staged otherIndex 3 Qt.CheckStateRole true] } ∧
    updateTreeModel 3 sampleWidget
      = { sampleWidget with
          trace := sampleWidget.trace ++
            [.setData .unstaged sampleIndex 3 Qt.CheckStateRole true] } ∧
    updateTreeModel 3
        { sampleWidget with
          unstagedFiles := { sampleWidget.unstagedFiles with selection := [] } }
      = { sampleWidget with
          unstagedFiles := { sampleWidget.unstagedFiles with selection := [] } } :=
  ⟨(updateTreeModel_writes_first_selected 3 _).1 otherIndex [sampleIndex] rfl,
   (updateTreeModel_writes_first_selected 3 sampleWidget).2.1 sampleIndex [] rfl rfl,
   (updateTreeModel_writes_first_selected 3 _).2.2 rfl rfl⟩

/-! ## New diff -/

/-- The outcome of setDiff, field by field. -/
theorem setDiff_eq (env : Env) (diff : Diff) (file pathspec : String) (w : DoubleTreeWidget) :
    setDiff env diff file pathspec w
      = { w with
          mTreeModel := { content := some (env.tree, diff) },
          stagedFiles :=
            { selection := [],
              rows := List.replicate (env.expandable .staged env.tree diff) false,
              visible := true },
          unstagedFiles :=
            { selection := [],
              rows := List.replicate (env.expandable .unstaged env.tree diff) true,
              visible := w.unstagedFiles.visible },
          mEditor := { content := none },
          mDiffView := { w.mDiffView with diff := some diff },
          trace := w.trace ++
            [.setTree env.tree diff, .expandAll .staged, .setTree env.tree diff,
             .expandAll .unstaged, .editorClear, .diffSetDiff diff,
             .setVisible .staged true] } := by
  simp [setDiff, DoubleTreeWidget.setTree, expandAll, editorClear, diffSetDiff, setVisible, log,
    setView, view, TreeView.reset, TreeView.expandAll]

/-- The outcome of setDiff depends neither on the file name, nor on the
pathspec, nor on the selections the two trees held before. -/
theorem setDiff_independent (env : Env) (diff : Diff) (file pathspec file2 pathspec2 : String)
    (w : DoubleTreeWidget) (stagedSelection unstagedSelection : List ModelIndex) :
    setDiff env diff file2 pathspec2
        { w with
          stagedFiles := { w.stagedFiles with selection := stagedSelection },
          unstagedFiles := { w.unstagedFiles with selection := unstagedSelection } }
      = setDiff env diff file pathspec w := by
  simp [setDiff_eq]

/-- C4: evaluation at the failing input. A freshly constructed widget receives
setDiff for a diff whose model shows two expandable rows in the staged tree and
three in the unstaged tree. The model is repopulated, expandAll is called on
both trees, the editor is cleared and the diff view holds the diff, but only
the unstaged tree ends fully expanded: the second setTree on the shared model
comes after the staged tree was expanded and leaves its rows collapsed. -/
theorem setDiff_leaves_staged_tree_collapsed :
    create false 0 1 false false = some sampleStart ∧
    (setDiff sampleEnv 3 "" "" sampleStart).stagedFiles.rows = [false, false] ∧
    ¬ (setDiff sampleEnv 3 "" "" sampleStart).stagedFiles.fullyExpanded ∧
    (setDiff sampleEnv 3 "" "" sampleStart).unstagedFiles.rows = [true, true, true] ∧
    (setDiff sampleEnv 3 "" "" sampleStart).unstagedFiles.fullyExpanded ∧
    (setDiff sampleEnv 3 "" "" sampleStart).mTreeModel.content = some (7, 3) ∧
    (setDiff sampleEnv 3 "" "" sampleStart).mEditor.content = none ∧
    (setDiff sampleEnv 3 "" "" sampleStart).mDiffView.diff = some 3 ∧
    (setDiff sampleEnv 3 "" "" sampleStart).trace
      = [.setTree 7 3, .expandAll .staged, .setTree 7 3, .expandAll .unstaged,
         .editorClear, .diffSetDiff 3, .setVisible .staged true] := by
  refine ⟨rfl, rfl, ?_, rfl, ?_, rfl, rfl, rfl, rfl⟩
  · intro h
    exact absurd (h false (by decide)) (by decide)
  · intro r hr
    have hrows : (setDiff sampleEnv 3 "" "" sampleStart).unstagedFiles.rows
        = [true, true, true] := rfl
    rw [hrows] at hr
    simpa using hr

/-! ## Collapse and expand -/

/-- Overwriting every flag of a list with b gives the list back exactly when
every flag already is b. -/
theorem map_const_eq_self_iff (b : Bool) (rows : List Bool) :
    rows.map (fun _ => b) = rows ↔ ∀ r ∈ rows, r = b := by
  induction rows with
  | nil => simp
  | cons r rest ih =>
    simp only [List.map_cons, List.cons.injEq, List.mem_cons, forall_eq_or_imp, ih]
    constructor
    · rintro ⟨h1, h2⟩
      exact ⟨h1.symm, h2⟩
    · rintro ⟨h1, h2⟩
      exact ⟨h1.symm, h2⟩

/-- C3, counterexample: two reachable states in which two toggles in a row do
not give the tree its expansion back. After setDiff the unstaged tree is fully
expanded while the latch of its button is off, and two toggles leave it fully
collapsed; such a state is reached whether the latch starts off (setDiff alone)
or on (one toggle, then setDiff). -/
theorem toggle_twice_changes_expansion :
    (widgetAfter false false [.setDiff 3 "" ""]).map
        (fun w => (w.collapseButtonUnstagedFiles, w.unstagedFiles.rows,
          (toggleCollapseUnstagedFiles (toggleCollapseUnstagedFiles w)).unstagedFiles.rows))
      = some (false, [true, true, true], [false, false, false]) ∧
    (widgetAfter true true [.toggleCollapseUnstagedFiles, .setDiff 3 "" ""]).map
        (fun w => (w.collapseButtonUnstagedFiles, w.unstagedFiles.rows,
          (toggleCollapseUnstagedFiles (toggleCollapseUnstagedFiles w)).unstagedFiles.rows))
      = some (false, [true, true, true], [false, false, false]) := by
  refine ⟨rfl, rfl⟩

/-- C3, amended: two toggles in a row give the latch of the button its value
back and leave every row of the tree in the state named by that latch (expanded
when it is on, collapsed when it is off); the tree has its earlier expansion
back exactly when every row already was in that state. -/
theorem toggle_twice_follows_latch (w : DoubleTreeWidget) :
    (toggleCollapseStagedFiles (toggleCollapseStagedFiles w)).collapseButtonStagedFiles
      = w.collapseButtonStagedFiles ∧
    (toggleCollapseStagedFiles (toggleCollapseStagedFiles w)).stagedFiles.rows
      = w.stagedFiles.rows.map (fun _ => w.collapseButtonStagedFiles) ∧
    ((toggleCollapseStagedFiles (toggleCollapseStagedFiles w)).stagedFiles.rows
        = w.stagedFiles.rows ↔
      ∀ r ∈ w.stagedFiles.rows, r = w.collapseButtonStagedFiles) ∧
    (toggleCollapseUnstagedFiles (toggleCollapseUnstagedFiles w)).collapseButtonUnstagedFiles
      = w.collapseButtonUnstagedFiles ∧
    (toggleCollapseUnstagedFiles (toggleCollapseUnstagedFiles w)).unstagedFiles.rows
      = w.unstagedFiles.rows.map (fun _ => w.collapseButtonUnstagedFiles) ∧
    ((toggleCollapseUnstagedFiles (toggleCollapseUnstagedFiles w)).unstagedFiles.rows
        = w.unstagedFiles.rows ↔
      ∀ r ∈ w.unstagedFiles.rows, r = w.collapseButtonUnstagedFiles) := by
  have hs : (toggleCollapseStagedFiles (toggleCollapseStagedFiles w)).stagedFiles.rows
      = w.stagedFiles.rows.map (fun _ => w.collapseButtonStagedFiles) := by
    cases hb : w.collapseButtonStagedFiles <;>
      simp [toggleCollapseStagedFiles, toggleState, expandAll, collapseAll, log, setView, view,
        TreeView.expandAll, TreeView.collapseAll, hb]
  have hu : (toggleCollapseUnstagedFiles (toggleCollapseUnstagedFiles w)).unstagedFiles.rows
      = w.unstagedFiles.rows.map (fun _ => w.collapseButtonUnstagedFiles) := by
    cases hb : w.collapseButtonUnstagedFiles <;>
      simp [toggleCollapseUnstagedFiles, toggleState, expandAll, collapseAll, log, setView, view,
        TreeView.expandAll, TreeView.collapseAll, hb]
  refine ⟨?_, hs, ?_, ?_, hu, ?_⟩
  · cases hb : w.collapseButtonStagedFiles <;>
      simp [toggleCollapseStagedFiles, toggleState, expandAll, collapseAll, log, setView, view, hb]
  · rw [hs]
    exact map_const_eq_self_iff _ _
  · cases hb : w.collapseButtonUnstagedFiles <;>
      simp [toggleCollapseUnstagedFiles, toggleState, expandAll, collapseAll, log, setView, view,
        hb]
  · rw [hu]
    exact map_const_eq_self_iff _ _

/-! ## Mutual exclusion of the two selections -/

/-- A well-formed event keeps the two selections mutually exclusive. -/
theorem step_selectionExclusive (env : Env) (e : Event) (w : DoubleTreeWidget)
    (hwf : e.wellFormed = true) (h : SelectionExclusive w) :
    SelectionExclusive (step env e w) := by
  unfold SelectionExclusive at *
  cases e with
  | rowSelected t index others =>
    have hv : index.isValid = true := hwf
    cases t <;>
      simp [step, fileSelected, hv, loadEditorContent, deselectAll, setFocus, editorLoad,
        diffEnable, diffSetFilter, log, setView, view, TreeView.deselectAll]
  | setDiff diff file pathspec =>
    simp [step, setDiff_eq]
  | updateTreeModel state =>
    simp only [step, updateTreeModel, TreeView.selectedIndexes]
    split
    · simpa [setData, log] using h
    · split
      · simpa [setData, log] using h
      · exact h
  | treeModelStateChanged index checkState =>
    simp only [step, treeModelStateChanged]
    split
    · simpa [diffEnable, editorClear, log] using h
    · split
      · simpa [diffEnable, editorClear, log] using h
      · exact h
  | toggleCollapseStagedFiles =>
    cases hb : w.collapseButtonStagedFiles <;>
      simpa [step, toggleCollapseStagedFiles, toggleState, expandAll, collapseAll, log, setView,
        view, TreeView.expandAll, TreeView.collapseAll, hb] using h
  | toggleCollapseUnstagedFiles =>
    cases hb : w.collapseButtonUnstagedFiles <;>
      simpa [step, toggleCollapseUnstagedFiles, toggleState, expandAll, collapseAll, log, setView,
        view, TreeView.expandAll, TreeView.collapseAll, hb] using h
  | buttonClicked idx =>
    simpa [step, buttonClicked, setCurrentIndex, log] using h

/-- Well-formed events keep the two selections mutually exclusive. -/
theorem run_selectionExclusive (events : List (Env × Event)) (w : DoubleTreeWidget)
    (hwf : ∀ p ∈ events, p.2.wellFormed = true) (h : SelectionExclusive w) :
    SelectionExclusive (run events w) := by
  induction events generalizing w with
  | nil => exact h
  | cons p rest ih =>
    obtain ⟨env, e⟩ := p
    simp only [run]
    apply ih
    · intro q hq
      exact hwf q (List.mem_cons_of_mem _ hq)
    · exact step_selectionExclusive env e w (hwf (env, e) (List.mem_cons_self _ _)) h

/-- A constructed widget has no selection in either tree. -/
theorem create_selection (NDEBUG : Bool) (Blame Diff : Int) (stagedLatch unstagedLatch : Bool)
    (w0 : DoubleTreeWidget)
    (h : create NDEBUG Blame Diff stagedLatch unstagedLatch = some w0) :
    w0.stagedFiles.selection = [] ∧ w0.unstagedFiles.selection = [] := by
  simp only [create] at h
  split at h
  · exact absurd h (by simp)
  · split at h
    · exact absurd h (by simp)
    · cases h
      exact ⟨rfl, rfl⟩

/-- C8: in every state reached from the constructed widget (in either build) by
a sequence of events (row selections with their fileSelected slot, setDiff,
updateTreeModel, treeModelStateChanged, the two collapse toggles, clicks on the
view buttons), at least one of the two trees has an empty selection. -/
theorem selection_mutually_exclusive (NDEBUG : Bool) (Blame Diff : Int)
    (stagedLatch unstagedLatch : Bool)
    (w0 : DoubleTreeWidget) (events : List (Env × Event))
    (hcreate : create NDEBUG Blame Diff stagedLatch unstagedLatch = some w0)
    (hwf : ∀ p ∈ events, p.2.wellFormed = true) :
    (run events w0).stagedFiles.selection = [] ∨
    (run events w0).unstagedFiles.selection = [] :=
  run_selectionExclusive events w0 hwf
    (Or.inl (create_selection NDEBUG Blame Diff stagedLatch unstagedLatch w0 hcreate).1)

/-- Witness of C8: the constructor succeeds, the sample events are well formed,
and after them the staged tree has no selection while the unstaged tree has
one. -/
theorem selection_mutually_exclusive_witness :
    create false 0 1 false false = some sampleStart ∧
    (∀ p ∈ sampleEvents, p.2.wellFormed = true) ∧
    (run sampleEvents sampleStart).unstagedFiles.selection = [otherIndex, sampleIndex] ∧
    ((run sampleEvents sampleStart).stagedFiles.selection = [] ∨
     (run sampleEvents sampleStart).unstagedFiles.selection = []) :=
  ⟨rfl, by simp [sampleEvents, Event.wellFormed, ModelIndex.isValid, sampleIndex, otherIndex],
   rfl,
   selection_mutually_exclusive false 0 1 false false sampleStart sampleEvents rfl
     (by simp [sampleEvents, Event.wellFormed, ModelIndex.isValid, sampleIndex, otherIndex])⟩

/-! ## The segmented button and the stacked file view -/

/-- Naming a button changes neither the buttons of the group nor their ids. -/
theorem setObjectNameAt_keys (name : String) (i : Nat) (bs : List (QAbstractButton × Int)) :
    (setObjectNameAt name i bs).map buttonKey = bs.map buttonKey := by
  induction bs generalizing i with
  | nil => cases i <;> rfl
  | cons p rest ih =>
    cases i with
    | zero => rfl
    | succ i => simp [setObjectNameAt, ih]

/-- The loop naming the middle buttons changes neither the buttons nor their ids. -/
theorem nameMiddle_keys (bs : List (QAbstractButton × Int)) :
    (nameMiddle bs).map buttonKey = bs.map buttonKey := by
  unfold nameMiddle
  generalize List.range (bs.length - 1) = positions
  induction positions generalizing bs with
  | nil => rfl
  | cons i rest ih =>
    simp only [List.foldl_cons]
    rw [ih]
    split
    · exact setObjectNameAt_keys _ _ _
    · rfl

/-- The group after addButton: the earlier buttons with their ids, followed by
the new button under the id that is the earlier size of the group. -/
theorem addButton_keys (sb : SegmentedButton) (button : QAbstractButton) (text : String)
    (checkable : Bool) :
    (sb.addButton button text checkable).mButtons.map buttonKey
      = sb.mButtons.map buttonKey ++ [(button.text, (sb.mButtons.length : Int))] := by
  unfold SegmentedButton.addButton
  simp only [nameMiddle_keys]
  split
  · simp [setObjectNameAt_keys, buttonKey]
  · simp [buttonKey]

/-- The group after addButtons. -/
theorem addButtons_keys (buttons : List (QAbstractButton × String × Bool))
    (sb : SegmentedButton) :
    (sb.addButtons buttons).mButtons.map buttonKey
      = sb.mButtons.map buttonKey ++ addedKeys sb.mButtons.length buttons := by
  induction buttons generalizing sb with
  | nil => simp [SegmentedButton.addButtons, addedKeys]
  | cons b rest ih =>
    obtain ⟨button, text, checkable⟩ := b
    have hlen : (sb.addButton button text checkable).mButtons.length
        = sb.mButtons.length + 1 := by
      have h := congrArg List.length (addButton_keys sb button text checkable)
      simpa using h
    simp only [SegmentedButton.addButtons, addedKeys]
    rw [ih, addButton_keys, hlen]
    simp

/-- The k-th of the added keys is the k-th button with the id n + k. -/
theorem addedKeys_get (buttons : List (QAbstractButton × String × Bool)) (n k : Nat) :
    (addedKeys n buttons)[k]?
      = buttons[k]?.map (fun b => (b.1.text, ((n + k : Nat) : Int))) := by
  induction buttons generalizing n k with
  | nil => simp [addedKeys]
  | cons b rest ih =>
    obtain ⟨button, text, checkable⟩ := b
    cases k with
    | zero => simp [addedKeys]
    | succ k =>
      simp only [addedKeys, List.getElem?_cons_succ, ih]
      have : n + 1 + k = n + (k + 1) := by omega
      rw [this]

/-- An event changes neither the button group nor the pages of the file view. -/
theorem step_static (env : Env) (e : Event) (w : DoubleTreeWidget) :
    (step env e w).segmentedButton = w.segmentedButton ∧
    (step env e w).mFileView.pages = w.mFileView.pages := by
  cases e with
  | rowSelected t index others =>
    cases hv : index.isValid <;> cases t <;>
      simp [step, fileSelected, hv, loadEditorContent, deselectAll, setFocus, editorLoad,
        diffEnable, diffSetFilter, log, setView, view]
  | setDiff diff file pathspec =>
    simp [step, setDiff_eq]
  | updateTreeModel state =>
    simp only [step, updateTreeModel]
    split
    · simp [setData, log]
    · split
      · simp [setData, log]
      · simp
  | treeModelStateChanged index checkState =>
    simp only [step, treeModelStateChanged]
    split
    · simp [diffEnable, editorClear, log]
    · split
      · simp [diffEnable, editorClear, log]
      · simp
  | toggleCollapseStagedFiles =>
    cases hb : w.collapseButtonStagedFiles <;>
      simp [step, toggleCollapseStagedFiles, toggleState, expandAll, collapseAll, log, setView,
        view, hb]
  | toggleCollapseUnstagedFiles =>
    cases hb : w.collapseButtonUnstagedFiles <;>
      simp [step, toggleCollapseUnstagedFiles, toggleState, expandAll, collapseAll, log, setView,
        view, hb]
  | buttonClicked idx =>
    simp only [step, buttonClicked, setCurrentIndex, log, QStackedWidget.setCurrentIndex]
    split <;> simp

/-- A sequence of events changes neither the button group nor the pages of the
file view. -/
theorem run_static (events : List (Env × Event)) (w : DoubleTreeWidget) :
    (run events w).segmentedButton = w.segmentedButton ∧
    (run events w).mFileView.pages = w.mFileView.pages := by
  induction events generalizing w with
  | nil => exact ⟨rfl, rfl⟩
  | cons p rest ih =>
    obtain ⟨env, e⟩ := p
    simp only [run]
    rw [(ih _).1, (ih _).2]
    exact step_static env e w

/-- An evaluated assert on addWidget passes exactly when the expected value is
the index of the new page, and then the page has been added. -/
theorem assertAddWidget_evaluated (s s2 : QStackedWidget) (p : Page) (expected : Int)
    (h : assertAddWidget false s p expected = some s2) :
    expected = (s.pages.length : Int) ∧ s2 = (s.addWidget p).1 := by
  by_cases he : (s.addWidget p).2 = expected
  · simp [assertAddWidget, he] at h
    exact ⟨he.symm, h.symm⟩
  · simp [assertAddWidget, he] at h

/-- What the constructor yields in a build without NDEBUG when it does not
abort: both asserts held, so Blame is 0 and Diff is 1; the group holds the Blame
button under id 0 and the Diff button under id 1; the file view holds the blame
editor at index 0 and the diff view at index 1 and shows index 0. -/
theorem create_some (Blame Diff : Int) (stagedLatch unstagedLatch : Bool)
    (w0 : DoubleTreeWidget)
    (h : create false Blame Diff stagedLatch unstagedLatch = some w0) :
    Blame = 0 ∧ Diff = 1 ∧
    w0.segmentedButton.mButtons.map buttonKey = [("Blame", 0), ("Diff", 1)] ∧
    w0.segmentedButton.idOf "Blame" = some 0 ∧
    w0.segmentedButton.idOf "Diff" = some 1 ∧
    w0.mFileView = { pages := [.blameEditor, .diffView], currentIndex := 0 } := by
  simp only [create] at h
  split at h
  · exact absurd h (by simp)
  · rename_i v1 hB
    split at h
    · exact absurd h (by simp)
    · rename_i v2 hD
      cases h
      obtain ⟨hB1, hB2⟩ := assertAddWidget_evaluated _ _ _ _ hB
      subst hB2
      obtain ⟨hD1, hD2⟩ := assertAddWidget_evaluated _ _ _ _ hD
      subst hD2
      exact ⟨hB1, hD1, rfl, rfl, rfl, rfl⟩

/-- What the constructor yields in a build with NDEBUG defined: it never aborts,
whatever the enumerator values, the group holds the Blame button under id 0 and
the Diff button under id 1, and the file view has no page. -/
theorem create_ndebug (Blame Diff : Int) (stagedLatch unstagedLatch : Bool) :
    ∃ w0, create true Blame Diff stagedLatch unstagedLatch = some w0 ∧
      w0.segmentedButton.idOf "Blame" = some 0 ∧
      w0.segmentedButton.idOf "Diff" = some 1 ∧
      w0.mFileView = { pages := [], currentIndex := -1 } :=
  ⟨_, rfl, rfl, rfl, rfl⟩

/-- The part of C6 that holds in a build without NDEBUG. addButton gives the
k-th button added to a SegmentedButton the id k. In a constructed widget the
Blame button has id 0, which is DoubleTreeWidget::Blame, and the Diff button has
id 1, which is DoubleTreeWidget::Diff; the file view holds the blame editor at
index 0 and the diff view at index 1 and shows the blame editor at first. In
every state reached later, a click on a button of the group makes its id the
current index of the file view, so that the page of that button is the one
shown. With the enumerator values 0 and 1 the constructor does not abort. -/
theorem segmented_button_selects_pages_with_asserts
    (buttons : List (QAbstractButton × String × Bool)) (k : Nat)
    (Blame Diff : Int) (stagedLatch unstagedLatch : Bool) (w0 : DoubleTreeWidget)
    (events : List (Env × Event)) (clicked : QAbstractButton × Int)
    (hcreate : create false Blame Diff stagedLatch unstagedLatch = some w0)
    (hclicked : clicked ∈ (run events w0).segmentedButton.mButtons) :
    (SegmentedButton.create.addButtons buttons).mButtons[k]?.map buttonKey
      = buttons[k]?.map (fun b => (b.1.text, (k : Int))) ∧
    w0.segmentedButton.idOf "Blame" = some Blame ∧ Blame = 0 ∧
    w0.segmentedButton.idOf "Diff" = some Diff ∧ Diff = 1 ∧
    w0.mFileView.pages[0]? = some .blameEditor ∧
    w0.mFileView.pages[1]? = some .diffView ∧
    w0.mFileView.currentIndex = 0 ∧
    w0.mFileView.currentWidget = some .blameEditor ∧
    (buttonClicked clicked.2 (run events w0)).mFileView.currentIndex = clicked.2 ∧
    (buttonClicked clicked.2 (run events w0)).mFileView.currentWidget
      = some (if clicked.1.text = "Blame" then Page.blameEditor else Page.diffView) ∧
    (create false 0 1 stagedLatch unstagedLatch).isSome = true := by
  obtain ⟨hB, hD, hkeys, hidB, hidD, hview⟩ :=
    create_some Blame Diff stagedLatch unstagedLatch w0 hcreate
  subst hB hD
  have hget : (SegmentedButton.create.addButtons buttons).mButtons[k]?.map buttonKey
      = buttons[k]?.map (fun b => (b.1.text, (k : Int))) := by
    have h := addButtons_keys buttons SegmentedButton.create
    have h2 := congrArg (fun l => l[k]?) h
    simp only [List.getElem?_map, SegmentedButton.create, List.map_nil, List.nil_append,
      List.length_nil, addedKeys_get, Nat.zero_add] at h2
    exact h2
  have hclick : buttonKey clicked = ("Blame", 0) ∨ buttonKey clicked = ("Diff", 1) := by
    rw [(run_static events w0).1] at hclicked
    have hmem : buttonKey clicked ∈ w0.segmentedButton.mButtons.map buttonKey :=
      List.mem_map_of_mem _ hclicked
    rw [hkeys] at hmem
    simpa using hmem
  have hpages : (run events w0).mFileView.pages = [.blameEditor, .diffView] := by
    rw [(run_static events w0).2, hview]
  refine ⟨hget, hidB, rfl, hidD, rfl, ?_, ?_, ?_, ?_, ?_, ?_, rfl⟩
  · rw [hview]; rfl
  · rw [hview]; rfl
  · rw [hview]
  · rw [hview]; rfl
  · rcases hclick with hc | hc
    · have h2 : clicked.2 = 0 := congrArg Prod.snd hc
      simp [buttonClicked, setCurrentIndex, log, QStackedWidget.setCurrentIndex, hpages, h2]
    · have h2 : clicked.2 = 1 := congrArg Prod.snd hc
      simp [buttonClicked, setCurrentIndex, log, QStackedWidget.setCurrentIndex, hpages, h2]
  · rcases hclick with hc | hc
    · have h1 : clicked.1.text = "Blame" := congrArg Prod.fst hc
      have h2 : clicked.2 = 0 := congrArg Prod.snd hc
      simp [buttonClicked, setCurrentIndex, log, QStackedWidget.setCurrentIndex,
        QStackedWidget.currentWidget, hpages, h1, h2]
    · have h1 : clicked.1.text = "Diff" := congrArg Prod.fst hc
      have h2 : clicked.2 = 1 := congrArg Prod.snd hc
      simp [buttonClicked, setCurrentIndex, log, QStackedWidget.setCurrentIndex,
        QStackedWidget.currentWidget, hpages, h1, h2]

/-- The statement above at a concrete input: the constructor succeeds with the
enumerator values 0 and 1, the Diff button is in the group after the sample
events, a click on it shows the diff view, and the third of three buttons added
to a SegmentedButton gets the id 2. -/
theorem segmented_button_selects_pages_with_asserts_witness :
    create false 0 1 false false = some sampleStart ∧
    sampleDiffButton ∈ (run sampleEvents sampleStart).segmentedButton.mButtons ∧
    (SegmentedButton.create.addButtons sampleButtons).mButtons[2]?.map buttonKey
      = some ("Right", 2) ∧
    (buttonClicked 1 (run sampleEvents sampleStart)).mFileView.currentIndex = 1 ∧
    (buttonClicked 1 (run sampleEvents sampleStart)).mFileView.currentWidget
      = some Page.diffView :=
  have h := segmented_button_selects_pages_with_asserts sampleButtons 2 0 1 false false
    sampleStart sampleEvents sampleDiffButton rfl (by decide)
  ⟨rfl, by decide, h.1, h.2.2.2.2.2.2.2.2.2.1, h.2.2.2.2.2.2.2.2.2.2.1⟩

/-- C6: evaluation at the failing input, the widget constructed in a build with
NDEBUG defined. The Blame and Diff buttons have the ids 0 and 1, but the two
addWidget calls stand inside assert and are not made: the file view has no page
and shows none at first, and a click on the Diff button (id 1) or on the Blame
button (id 0) leaves the current index at -1 with no page shown. In a build
without NDEBUG the same click on the Diff button shows the diff view. -/
theorem ndebug_build_shows_no_page :
    create true 0 1 false false = some sampleStartNDEBUG ∧
    sampleStartNDEBUG.segmentedButton.idOf "Blame" = some 0 ∧
    sampleStartNDEBUG.segmentedButton.idOf "Diff" = some 1 ∧
    sampleDiffButton ∈ sampleStartNDEBUG.segmentedButton.mButtons ∧
    sampleStartNDEBUG.mFileView.pages = [] ∧
    sampleStartNDEBUG.mFileView.currentIndex = -1 ∧
    sampleStartNDEBUG.mFileView.currentWidget = none ∧
    (buttonClicked 1 sampleStartNDEBUG).mFileView.currentIndex = -1 ∧
    (buttonClicked 1 sampleStartNDEBUG).mFileView.currentWidget = none ∧
    (buttonClicked 0 sampleStartNDEBUG).mFileView.currentIndex = -1 ∧
    (buttonClicked 0 sampleStartNDEBUG).mFileView.currentWidget = none ∧
    create false 0 1 false false = some sampleStart ∧
    (buttonClicked 1 sampleStart).mFileView.currentIndex = 1 ∧
    (buttonClicked 1 sampleStart).mFileView.currentWidget = some Page.diffView := by
  refine ⟨rfl, rfl, rfl, by decide, rfl, rfl, rfl, rfl, rfl, rfl, rfl, rfl, rfl, rfl⟩

end Gittyup
